import Mathlib

/-!
Verification of the MK-312 serial communication wrapper (`mk312/com.py`).

The embedding models the transport as a deterministic byte channel: a function
from the index of the read call to the bytes that call returns (pyserial
`read(n)` may return fewer than `n` bytes on timeout, including zero), plus a
log of every buffer written and an open/closed flag.  Python exceptions are
modelled with an explicit error constructor carrying the mutated state, since
Python mutations (`self.key = ...`) survive a raised exception.  Python values
that may be either `bool` or `int` (the return of `readaddress`) are modelled
by a small sum type with Python's numeric equality (`False == 0`).
-/

namespace MK312

/-- The exceptions raised by `mk312/com.py` (`mk312/exceptions.py`), plus the
built-in `IndexError` that `writedata` can raise on an empty response buffer. -/
inductive Exc where
  | receivingLength (n : Nat)
  | checksum
  | writeDataValue
  | handshakeExc
  | indexError
deriving DecidableEq

/-- A Python value that is either a `bool` or an `int`: `readaddress` returns
`False` on a silent device and an `int` otherwise. -/
inductive PyVal where
  | pyBool (b : Bool)
  | pyInt (n : Int)
deriving DecidableEq

/-- Numeric coercion used by Python comparisons: `False` is `0`, `True` is `1`. -/
def PyVal.toInt : PyVal → Int
  | .pyBool b => if b then 1 else 0
  | .pyInt n => n

/-- Python `==` between ints and bools: numeric equality (`False == 0` is `True`). -/
def pyEq (a b : PyVal) : Bool :=
  a.toInt == b.toInt

/-- Python `is` between ints and bools, as the source uses it on values read
back from the device.  CPython interns the small integers `-5 ..= 256`, so `is`
on two equal small ints is `True`; an `int` is never `is`-identical to a `bool`. -/
def pyIs : PyVal → PyVal → Bool
  | .pyInt a, .pyInt b => a == b && decide (-5 ≤ a) && decide (a ≤ 256)
  | .pyBool a, .pyBool b => a == b
  | _, _ => false

/-- The serial port: `responses i` is what the `i`-th call of `port.read`
returns before truncation to the requested count, `nreads` counts the read
calls made so far, `sent` logs every buffer passed to `port.write`, and
`opened` is pyserial's `is_open`. -/
structure PortState where
  responses : Nat → List Nat
  nreads : Nat
  sent : List (List Nat)
  opened : Bool

/-- `port.write(data)`: append the buffer to the log. -/
def portWrite (data : List Nat) (p : PortState) : PortState :=
  { p with sent := p.sent ++ [data] }

/-- `port.close()`. -/
def portClose (p : PortState) : PortState :=
  { p with opened := false }

/-- Build a port whose successive reads return the given buffers, then nothing. -/
def mkPort (rs : List (List Nat)) : PortState :=
  { responses := fun i => rs.getD i [], nreads := 0, sent := [], opened := true }

/-- A port that never answers any read. -/
def silentPort : PortState :=
  { responses := fun _ => [], nreads := 0, sent := [], opened := true }

/-- `sum(send_data) % 256`, the checksum of `com.py`. -/
def checksumOf (l : List Nat) : Nat :=
  l.sum % 256

/-- `[x ^ self.key for x in send_data]` guarded by `if self.key:` — Python
truthiness, so a key of `0` is falsy and skips the XOR (lines 150, 210, 262). -/
def applyKeyTruthy (key : Option Nat) (sd : List Nat) : List Nat :=
  match key with
  | some k => if k ≠ 0 then sd.map (fun x => x ^^^ k) else sd
  | none => sd

/-- `[x ^ self.key for x in send_data]` guarded by `if self.key is not None:`
(line 118): a key of `0` is still applied. -/
def applyKeyNotNone (key : Option Nat) (sd : List Nat) : List Nat :=
  match key with
  | some k => sd.map (fun x => x ^^^ k)
  | none => sd

/-- The read request frame of `readaddress` (lines 200-207):
`[0x3c, address >> 8, address & 0xff]` with the checksum appended. -/
def readFrame (address : Nat) : List Nat :=
  [0x3c, address >>> 8, address &&& 0xff] ++
    [checksumOf [0x3c, address >>> 8, address &&& 0xff]]

/-- The write frame of `writedata` (lines 254-258):
`[((0x3 + 1) << 0x4) | 0xd, address >> 8, address & 0xff, data]` with the
checksum appended. -/
def writeFrame (address : Nat) (data : Nat) : List Nat :=
  [((0x3 + 1) <<< 0x4) ||| 0xd, address >>> 8, address &&& 0xff, data] ++
    [checksumOf [((0x3 + 1) <<< 0x4) ||| 0xd, address >>> 8, address &&& 0xff, data]]

/-- Result of `readaddress` / `writedata`: a value or a raised exception,
with the port state at that moment (these methods never change `self.key`). -/
inductive RW (α : Type) where
  | ok (v : α) (port : PortState)
  | exc (e : Exc) (port : PortState)

def rwVal {α : Type} : RW α → Option α
  | .ok v _ => some v
  | .exc _ _ => none

def rwErr {α : Type} : RW α → Option Exc
  | .ok _ _ => none
  | .exc e _ => some e

def rwPort {α : Type} : RW α → PortState
  | .ok _ p => p
  | .exc _ p => p

/-- `MK312CommunicationWrapper.readaddress` (lines 190-237): send the keyed
read frame, read 3 bytes; an empty response returns Python `False`, a 1- or
2-byte response raises `MK312ReceivingLengthException`, a checksum mismatch
raises `MK312ChecksumException`, otherwise return byte 1 of the response. -/
def readaddress (key : Option Nat) (address : Nat) (p : PortState) : RW PyVal :=
  let sd1 := applyKeyTruthy key (readFrame address)
  let p1 := portWrite sd1 p
  let rd := (p1.responses p1.nreads).take 3
  let p2 := { p1 with nreads := p1.nreads + 1 }
  if rd.length = 0 then .ok (PyVal.pyBool false) p2
  else if rd.length ≠ 3 then .exc (Exc.receivingLength rd.length) p2
  else if checksumOf rd.dropLast ≠ rd.getLastD 0 then .exc Exc.checksum p2
  else .ok (PyVal.pyInt (rd.getD 1 0 : Nat)) p2

/-- `MK312CommunicationWrapper.writedata` (lines 239-278): reject a value
outside `0 ..= 0xff` before any I/O, send the keyed write frame, read 1 byte
and compare it with `0x06`.  On an empty response the source evaluates
`read_data[0]`, which raises `IndexError`. -/
def writedata (key : Option Nat) (address : Nat) (data : Int) (p : PortState) : RW Bool :=
  if data < 0 ∨ data > 0xff then .exc Exc.writeDataValue p
  else
    let sd1 := applyKeyTruthy key (writeFrame address data.toNat)
    let p1 := portWrite sd1 p
    let rd := (p1.responses p1.nreads).take 1
    let p2 := { p1 with nreads := p1.nreads + 1 }
    match rd.head? with
    | none => .exc Exc.indexError p2
    | some b => if b ≠ 0x06 then .ok false p2 else .ok true p2

/-- Result of the probe loop (`while True:` at lines 116-142): either the break
on a `0x07` byte, carrying the possibly updated key, or the raised
`MK312HandshakeException`. -/
inductive PRes where
  | ok (key : Option Nat) (port : PortState)
  | exc (e : Exc) (key : Option Nat) (port : PortState)

def pExcOf : PRes → Option Exc
  | .ok _ _ => none
  | .exc e _ _ => some e

def pKey : PRes → Option Nat
  | .ok k _ => k
  | .exc _ k _ => k

def pPort : PRes → PortState
  | .ok _ p => p
  | .exc _ _ p => p

/-- The probe loop of `handshake` (lines 111-142).  `r` is the remaining retry
budget `self.handshake_repeat - handshake_repeat`: the source raises when the
incremented counter reaches the budget, i.e. when `r ≤ 1` at the start of the
failing iteration (for budget `0` the first iteration already raises).  Each
iteration XORs the loop-carried `send_data` with the key whenever the key `is
not None`, writes it, reads one byte, falls back to the default key `0x55` on
an empty read, and breaks on a single `0x07` byte. -/
def probeLoop (r : Nat) (key : Option Nat) (sd : List Nat) (p : PortState) : PRes :=
  let sd1 := applyKeyNotNone key sd
  let p1 := portWrite sd1 p
  let rd := (p1.responses p1.nreads).take 1
  let p2 := { p1 with nreads := p1.nreads + 1 }
  let key1 := if rd.length = 0 then some 0x55 else key
  if rd.length = 1 ∧ rd.head? = some 0x07 then PRes.ok key1 p2
  else
    match r with
    | 0 => PRes.exc Exc.handshakeExc key1 p2
    | r' + 1 =>
      if r' = 0 then PRes.exc Exc.handshakeExc key1 p2
      else probeLoop r' key1 sd1 p2

/-- Result of `handshake`: the Python return value (`True` on the direct
success path, `None` after a recursive retry), a raised exception, or fuel
exhaustion — the marker for the source's unbounded recursion not returning.
The key and port are the object state at that moment. -/
inductive HS where
  | ok (ret : Option Bool) (key : Option Nat) (port : PortState)
  | exc (e : Exc) (key : Option Nat) (port : PortState)
  | outOfFuel (key : Option Nat) (port : PortState)

def hsRet : HS → Option (Option Bool)
  | .ok r _ _ => some r
  | _ => none

def hsExcOf : HS → Option Exc
  | .exc e _ _ => some e
  | _ => none

def hsKey : HS → Option Nat
  | .ok _ k _ => k
  | .exc _ k _ => k
  | .outOfFuel k _ => k

def hsPort : HS → PortState
  | .ok _ _ p => p
  | .exc _ _ p => p
  | .outOfFuel _ p => p

def hsIsOutOfFuel : HS → Bool
  | .outOfFuel _ _ => true
  | _ => false

/-- `MK312CommunicationWrapper.handshake` (lines 102-178), with explicit fuel
for the source's self-recursion.  After the probe loop breaks, the fixed
key-negotiation frame `[0x2f, 0x00, checksum]` is sent (XORed only under a
truthy key) and 3 bytes are read: an empty response sets the default key
`0x55` and recurses, an invalid checksum recurses with the key unchanged, and
both recursive paths make the outer call return Python `None`; a valid
checksum sets the key to `0x55 ^ read_data[1]` and returns `True` (a 1- or
2-byte response whose checksum happens to verify would hit `read_data[1]` and
raise `IndexError`). -/
def handshakeFuel : Nat → Nat → Option Nat → PortState → HS
  | 0, _, key, p => HS.outOfFuel key p
  | fuel + 1, cfg, key, p =>
    match probeLoop cfg key [0x00] p with
    | .exc e k p1 => HS.exc e k p1
    | .ok k p1 =>
      let sd2 := [0x2f, 0x00] ++ [checksumOf [0x2f, 0x00]]
      let p2 := portWrite (applyKeyTruthy k sd2) p1
      let rd := (p2.responses p2.nreads).take 3
      let p3 := { p2 with nreads := p2.nreads + 1 }
      if rd.length = 0 then
        match handshakeFuel fuel cfg (some 0x55) p3 with
        | .ok _ k2 p4 => HS.ok none k2 p4
        | r => r
      else
        if checksumOf rd.dropLast ≠ rd.getLastD 0 then
          match handshakeFuel fuel cfg k p3 with
          | .ok _ k2 p4 => HS.ok none k2 p4
          | r => r
        else
          match rd[1]? with
          | some b1 => HS.ok (some true) (some (0x55 ^^^ b1)) p3
          | none => HS.exc Exc.indexError k p3

/-- Modelled from the spec: `constants.py` is not under `src/`; §6 of the spec
supplies the register address table as external configuration.  The value
`0x4213` of the key register is evidenced by the log line in
`MK312CommunicationWrapper.__resetkey`.  No claim depends on any other
numeric value below. -/
def ADDRESS_KEY : Nat := 0x4213

/-- Modelled from the spec: command register address (external configuration). -/
def ADDRESS_COMMAND_1 : Nat := 0x4070

/-- Modelled from the spec: current-mode register address (external configuration). -/
def ADDRESS_CURRENT_MODE : Nat := 0x407b

/-- Modelled from the spec: power-level register address (external configuration). -/
def ADDRESS_POWER_LEVEL : Nat := 0x41f4

/-- Modelled from the spec: status/control register R15 address (external configuration). -/
def ADDRESS_R15 : Nat := 0x4090

/-- Modelled from the spec: channel A level register address (external configuration). -/
def ADDRESS_LEVELA : Nat := 0x4064

/-- Modelled from the spec: channel B level register address (external configuration). -/
def ADDRESS_LEVELB : Nat := 0x4065

/-- Modelled from the spec: multi-adjust minimum bound register (external configuration). -/
def ADDRESS_MA_MIN_VALUE : Nat := 0x4086

/-- Modelled from the spec: multi-adjust maximum bound register (external configuration). -/
def ADDRESS_MA_MAX_VALUE : Nat := 0x4087

/-- Modelled from the spec: multi-adjust level register address (external configuration). -/
def ADDRESS_LEVELMA : Nat := 0x420d

/-- Modelled from the spec: EEPROM-backed power-level slot (external configuration). -/
def EEPROM_ADDRESS_POWER_LEVEL : Nat := 0x8008

/-- Modelled from the spec: EEPROM-backed favorite-mode slot (external configuration). -/
def EEPROM_ADDRESS_FAVORITE_MODE : Nat := 0x8009

/-- Modelled from the spec: command byte starting the favorite module (external configuration). -/
def COMMAND_START_FAVORITE_MODULE : Int := 0x14

/-- Modelled from the spec: command byte leaving the menu (external configuration). -/
def COMMAND_EXIT_MENU : Int := 0x0a

/-- Modelled from the spec: command byte selecting the new mode (external configuration). -/
def COMMAND_NEW_MODE : Int := 0x0c

/-- Bit position of the ADC-disable flag in R15; the source comments
`Set bit 0 to True` / `Set bit 0 to False` fix it to `0`. -/
def REGISTER_15_ADCDISABLE : Nat := 0

/-- Result of an operation-layer call: the returned value, a raised exception,
or exhaustion of the handshake fuel, together with the object's key and the
port state at that moment. -/
inductive OpRes (α : Type) where
  | ok (v : α) (key : Option Nat) (port : PortState)
  | exc (e : Exc) (key : Option Nat) (port : PortState)
  | outOfFuel (key : Option Nat) (port : PortState)

def opVal {α : Type} : OpRes α → Option α
  | .ok v _ _ => some v
  | _ => none

def opExcOf {α : Type} : OpRes α → Option Exc
  | .exc e _ _ => some e
  | _ => none

def opKey {α : Type} : OpRes α → Option Nat
  | .ok _ k _ => k
  | .exc _ k _ => k
  | .outOfFuel k _ => k

def opPort {α : Type} : OpRes α → PortState
  | .ok _ _ p => p
  | .exc _ _ p => p
  | .outOfFuel _ p => p

def opIsOutOfFuel {α : Type} : OpRes α → Bool
  | .outOfFuel _ _ => true
  | _ => false

/-- The `if self.key is None: self.handshake()` guard that opens every guarded
operation; the handshake's return value is discarded. -/
def ensureKey (fuel cfg : Nat) (key : Option Nat) (p : PortState) : HS :=
  match key with
  | none => handshakeFuel fuel cfg none p
  | some k => HS.ok none (some k) p

/-- `MK312CommunicationWrapper.favoriteModeLoad` (lines 280-292). -/
def favoriteModeLoad (fuel cfg : Nat) (key : Option Nat) (p : PortState) : OpRes Bool :=
  match ensureKey fuel cfg key p with
  | .exc e k p1 => .exc e k p1
  | .outOfFuel k p1 => .outOfFuel k p1
  | .ok _ k p1 =>
    match writedata k ADDRESS_COMMAND_1 COMMAND_START_FAVORITE_MODULE p1 with
    | .exc e p2 => .exc e k p2
    | .ok b p2 => .ok b k p2

/-- `MK312CommunicationWrapper.favoriteModeRead` (lines 294-306). -/
def favoriteModeRead (fuel cfg : Nat) (key : Option Nat) (p : PortState) : OpRes PyVal :=
  match ensureKey fuel cfg key p with
  | .exc e k p1 => .exc e k p1
  | .outOfFuel k p1 => .outOfFuel k p1
  | .ok _ k p1 =>
    match readaddress k EEPROM_ADDRESS_FAVORITE_MODE p1 with
    | .exc e p2 => .exc e k p2
    | .ok v p2 => .ok v k p2

/-- `MK312CommunicationWrapper.favoriteModeWrite` (lines 308-325):
short-circuits to `True` when the stored favorite already equals the
requested mode (Python `==`, so a silent read's `False` equals mode `0`). -/
def favoriteModeWrite (fuel cfg : Nat) (key : Option Nat) (mode : Int) (p : PortState) :
    OpRes Bool :=
  match ensureKey fuel cfg key p with
  | .exc e k p1 => .exc e k p1
  | .outOfFuel k p1 => .outOfFuel k p1
  | .ok _ k p1 =>
    match readaddress k EEPROM_ADDRESS_FAVORITE_MODE p1 with
    | .exc e p2 => .exc e k p2
    | .ok v p2 =>
      if pyEq (PyVal.pyInt mode) v then .ok true k p2
      else
        match writedata k EEPROM_ADDRESS_FAVORITE_MODE mode p2 with
        | .exc e p3 => .exc e k p3
        | .ok b p3 => .ok b k p3

/-- `MK312CommunicationWrapper.modeSwitch` (lines 327-367): bail out with
`True` when the current-mode register already reads back as `mode`; otherwise
write the mode, the exit-menu command and the new-mode command (aborting with
`False` on any unacknowledged write; the fixed settle sleeps carry no state
and are omitted) and finally read the mode back for verification. -/
def modeSwitch (fuel cfg : Nat) (key : Option Nat) (mode : Int) (p : PortState) : OpRes Bool :=
  match ensureKey fuel cfg key p with
  | .exc e k p1 => .exc e k p1
  | .outOfFuel k p1 => .outOfFuel k p1
  | .ok _ k p1 =>
    match readaddress k ADDRESS_CURRENT_MODE p1 with
    | .exc e p2 => .exc e k p2
    | .ok v p2 =>
      if pyEq (PyVal.pyInt mode) v then .ok true k p2
      else
        match writedata k ADDRESS_CURRENT_MODE mode p2 with
        | .exc e p3 => .exc e k p3
        | .ok false p3 => .ok false k p3
        | .ok true p3 =>
          match writedata k ADDRESS_COMMAND_1 COMMAND_EXIT_MENU p3 with
          | .exc e p4 => .exc e k p4
          | .ok false p4 => .ok false k p4
          | .ok true p4 =>
            match writedata k ADDRESS_COMMAND_1 COMMAND_NEW_MODE p4 with
            | .exc e p5 => .exc e k p5
            | .ok false p5 => .ok false k p5
            | .ok true p5 =>
              match readaddress k ADDRESS_CURRENT_MODE p5 with
              | .exc e p6 => .exc e k p6
              | .ok v2 p6 => .ok (pyEq (PyVal.pyInt mode) v2) k p6

/-- `MK312CommunicationWrapper.powerLevelSet` (lines 369-393); the read-back
comparison uses Python `is` (line 389). -/
def powerLevelSet (fuel cfg : Nat) (key : Option Nat) (powerlevel : Int) (p : PortState) :
    OpRes Bool :=
  match ensureKey fuel cfg key p with
  | .exc e k p1 => .exc e k p1
  | .outOfFuel k p1 => .outOfFuel k p1
  | .ok _ k p1 =>
    match writedata k ADDRESS_POWER_LEVEL powerlevel p1 with
    | .exc e p2 => .exc e k p2
    | .ok false p2 => .ok false k p2
    | .ok true p2 =>
      match readaddress k ADDRESS_POWER_LEVEL p2 with
      | .exc e p3 => .exc e k p3
      | .ok v p3 => .ok (pyIs (PyVal.pyInt powerlevel) v) k p3

/-- `MK312CommunicationWrapper.powerLevelRead` (lines 395-407). -/
def powerLevelRead (fuel cfg : Nat) (key : Option Nat) (p : PortState) : OpRes PyVal :=
  match ensureKey fuel cfg key p with
  | .exc e k p1 => .exc e k p1
  | .outOfFuel k p1 => .outOfFuel k p1
  | .ok _ k p1 =>
    match readaddress k EEPROM_ADDRESS_POWER_LEVEL p1 with
    | .exc e p2 => .exc e k p2
    | .ok v p2 => .ok v k p2

/-- `MK312CommunicationWrapper.powerLevelWrite` (lines 409-426): short-circuits
to `True` when the stored level already equals the requested one (Python `==`). -/
def powerLevelWrite (fuel cfg : Nat) (key : Option Nat) (powerlevel : Int) (p : PortState) :
    OpRes Bool :=
  match ensureKey fuel cfg key p with
  | .exc e k p1 => .exc e k p1
  | .outOfFuel k p1 => .outOfFuel k p1
  | .ok _ k p1 =>
    match readaddress k EEPROM_ADDRESS_POWER_LEVEL p1 with
    | .exc e p2 => .exc e k p2
    | .ok v p2 =>
      if pyEq (PyVal.pyInt powerlevel) v then .ok true k p2
      else
        match writedata k EEPROM_ADDRESS_POWER_LEVEL powerlevel p2 with
        | .exc e p3 => .exc e k p3
        | .ok b p3 => .ok b k p3

/-- `MK312CommunicationWrapper.adcDisable` (lines 428-446): reads R15, sets
bit `REGISTER_15_ADCDISABLE` and writes the result back.  The source has no
`if self.key is None` guard here.  The values involved are nonnegative, so
Python's `|` on them is `Nat` bitwise or. -/
def adcDisable (key : Option Nat) (p : PortState) : OpRes Bool :=
  match readaddress key ADDRESS_R15 p with
  | .exc e p1 => .exc e key p1
  | .ok v p1 =>
    let register15 := v.toInt.toNat ||| (1 <<< REGISTER_15_ADCDISABLE)
    match writedata key ADDRESS_R15 (register15 : Int) p1 with
    | .exc e p2 => .exc e key p2
    | .ok b p2 => .ok b key p2

/-- `MK312CommunicationWrapper.adcEnable` (lines 448-466): reads R15, clears
bit `REGISTER_15_ADCDISABLE` (Python `x & ~mask` on nonnegative ints is
`Nat.ldiff`) and writes the result back.  No `if self.key is None` guard. -/
def adcEnable (key : Option Nat) (p : PortState) : OpRes Bool :=
  match readaddress key ADDRESS_R15 p with
  | .exc e p1 => .exc e key p1
  | .ok v p1 =>
    let register15 := Nat.ldiff v.toInt.toNat (1 <<< REGISTER_15_ADCDISABLE)
    match writedata key ADDRESS_R15 (register15 : Int) p1 with
    | .exc e p2 => .exc e key p2
    | .ok b p2 => .ok b key p2

/-- `MK312CommunicationWrapper.levelASet` (lines 468-496): the `0 ..= 0xff`
range check precedes the key guard; the read-back comparison uses Python `is`. -/
def levelASet (fuel cfg : Nat) (key : Option Nat) (level : Int) (p : PortState) : OpRes Bool :=
  if level < 0 ∨ level > 0xff then .ok false key p
  else
    match ensureKey fuel cfg key p with
    | .exc e k p1 => .exc e k p1
    | .outOfFuel k p1 => .outOfFuel k p1
    | .ok _ k p1 =>
      match writedata k ADDRESS_LEVELA level p1 with
      | .exc e p2 => .exc e k p2
      | .ok false p2 => .ok false k p2
      | .ok true p2 =>
        match readaddress k ADDRESS_LEVELA p2 with
        | .exc e p3 => .exc e k p3
        | .ok v p3 => .ok (pyIs (PyVal.pyInt level) v) k p3

/-- `MK312CommunicationWrapper.levelAGet` (lines 498-512). -/
def levelAGet (fuel cfg : Nat) (key : Option Nat) (p : PortState) : OpRes PyVal :=
  match ensureKey fuel cfg key p with
  | .exc e k p1 => .exc e k p1
  | .outOfFuel k p1 => .outOfFuel k p1
  | .ok _ k p1 =>
    match readaddress k ADDRESS_LEVELA p1 with
    | .exc e p2 => .exc e k p2
    | .ok v p2 => .ok v k p2

/-- `MK312CommunicationWrapper.levelBSet` (lines 514-542), same shape as
`levelASet` on the B register. -/
def levelBSet (fuel cfg : Nat) (key : Option Nat) (level : Int) (p : PortState) : OpRes Bool :=
  if level < 0 ∨ level > 0xff then .ok false key p
  else
    match ensureKey fuel cfg key p with
    | .exc e k p1 => .exc e k p1
    | .outOfFuel k p1 => .outOfFuel k p1
    | .ok _ k p1 =>
      match writedata k ADDRESS_LEVELB level p1 with
      | .exc e p2 => .exc e k p2
      | .ok false p2 => .ok false k p2
      | .ok true p2 =>
        match readaddress k ADDRESS_LEVELB p2 with
        | .exc e p3 => .exc e k p3
        | .ok v p3 => .ok (pyIs (PyVal.pyInt level) v) k p3

/-- `MK312CommunicationWrapper.levelBGet` (lines 544-558). -/
def levelBGet (fuel cfg : Nat) (key : Option Nat) (p : PortState) : OpRes PyVal :=
  match ensureKey fuel cfg key p with
  | .exc e k p1 => .exc e k p1
  | .outOfFuel k p1 => .outOfFuel k p1
  | .ok _ k p1 =>
    match readaddress k ADDRESS_LEVELB p1 with
    | .exc e p2 => .exc e k p2
    | .ok v p2 => .ok v k p2

/-- `MK312CommunicationWrapper.levelMAGetMinMaxValue` (lines 593-613): two
sequential reads of the multi-adjust bound registers. -/
def levelMAGetMinMaxValue (fuel cfg : Nat) (key : Option Nat) (p : PortState) :
    OpRes (PyVal × PyVal) :=
  match ensureKey fuel cfg key p with
  | .exc e k p1 => .exc e k p1
  | .outOfFuel k p1 => .outOfFuel k p1
  | .ok _ k p1 =>
    match readaddress k ADDRESS_MA_MIN_VALUE p1 with
    | .exc e p2 => .exc e k p2
    | .ok vmin p2 =>
      match readaddress k ADDRESS_MA_MAX_VALUE p2 with
      | .exc e p3 => .exc e k p3
      | .ok vmax p3 => .ok (vmin, vmax) k p3

/-- `MK312CommunicationWrapper.levelMASet` (lines 560-591): the key guard
comes first, then the dynamic bounds from `levelMAGetMinMaxValue` (Python
`<`/`>` coerce a read-back `False` to `0`), then write and `is`-verify. -/
def levelMASet (fuel cfg : Nat) (key : Option Nat) (level : Int) (p : PortState) : OpRes Bool :=
  match ensureKey fuel cfg key p with
  | .exc e k p1 => .exc e k p1
  | .outOfFuel k p1 => .outOfFuel k p1
  | .ok _ k p1 =>
    match levelMAGetMinMaxValue fuel cfg k p1 with
    | .exc e k2 p2 => .exc e k2 p2
    | .outOfFuel k2 p2 => .outOfFuel k2 p2
    | .ok (vmin, vmax) k2 p2 =>
      if level < vmin.toInt ∨ level > vmax.toInt then .ok false k2 p2
      else
        match writedata k2 ADDRESS_LEVELMA level p2 with
        | .exc e p3 => .exc e k2 p3
        | .ok false p3 => .ok false k2 p3
        | .ok true p3 =>
          match readaddress k2 ADDRESS_LEVELMA p3 with
          | .exc e p4 => .exc e k2 p4
          | .ok v p4 => .ok (pyIs (PyVal.pyInt level) v) k2 p4

/-- `MK312CommunicationWrapper.levelMAGet` (lines 615-629). -/
def levelMAGet (fuel cfg : Nat) (key : Option Nat) (p : PortState) : OpRes PyVal :=
  match ensureKey fuel cfg key p with
  | .exc e k p1 => .exc e k p1
  | .outOfFuel k p1 => .outOfFuel k p1
  | .ok _ k p1 =>
    match readaddress k ADDRESS_LEVELMA p1 with
    | .exc e p2 => .exc e k p2
    | .ok v p2 => .ok v k p2

/-- `MK312CommunicationWrapper.__resetkey` (lines 180-188): read the key
register (the value is only logged, but a raised exception propagates), write
`0x00` into it (the acknowledgement is discarded), then clear the local key.
There is no exception handling. -/
def resetkey (key : Option Nat) (p : PortState) : OpRes Unit :=
  match readaddress key ADDRESS_KEY p with
  | .exc e p1 => .exc e key p1
  | .ok _ p1 =>
    match writedata key ADDRESS_KEY 0 p1 with
    | .exc e p2 => .exc e key p2
    | .ok _ p2 => .ok () none p2

/-- `MK312CommunicationWrapper.close` (lines 84-101): reset the key, then
close the serial port if it is open (returning `True`) and return `None`
otherwise.  A `__resetkey` exception propagates before the port is closed. -/
def close (key : Option Nat) (p : PortState) : OpRes (Option Bool) :=
  match resetkey key p with
  | .exc e k p1 => .exc e k p1
  | .outOfFuel k p1 => .outOfFuel k p1
  | .ok _ k p1 =>
    if p1.opened then .ok (some true) k (portClose p1) else .ok none k p1

/-- An adversarial transport: every probe read (even read index) answers
`0x07`, every key-negotiation read (odd read index) times out empty. -/
def advResp : Nat → List Nat :=
  fun i => if i % 2 = 0 then [0x07] else []

/-- The adversarial transport as a fresh port. -/
def advPort : PortState :=
  { responses := advResp, nreads := 0, sent := [], opened := true }

/-- A port answering one valid R15 read (value `0x05`) and one write ack. -/
def cexPortAdc : PortState :=
  mkPort [[0x00, 0x05, 0x05], [0x06]]

/-- One probe iteration that reads `0x07` breaks out of the loop at once,
leaving the key unchanged, for any remaining budget. -/
theorem probeLoop_break (r : Nat) (key : Option Nat) (sd : List Nat) (p : PortState)
    (h : p.responses p.nreads = [0x07]) :
    probeLoop r key sd p =
      PRes.ok key { p with nreads := p.nreads + 1,
                           sent := p.sent ++ [applyKeyNotNone key sd] } := by
  rw [probeLoop.eq_def]
  simp [portWrite, h]

/-- Against a fully silent transport the probe loop always terminates in the
`MK312HandshakeException`, with the key already switched to the default
`0x55`, after at most `r + 1` reads. -/
theorem probeLoop_silent (r : Nat) : ∀ (key : Option Nat) (sd : List Nat) (p : PortState),
    (∀ i, p.responses i = []) →
    ∃ q : PortState, probeLoop r key sd p = PRes.exc Exc.handshakeExc (some 0x55) q ∧
      (∀ i, q.responses i = []) ∧ q.nreads ≤ p.nreads + r + 1 := by
  induction r with
  | zero =>
    intro key sd p hs
    refine ⟨{ p with nreads := p.nreads + 1, sent := p.sent ++ [applyKeyNotNone key sd] },
      ?_, fun i => hs i, by change p.nreads + 1 ≤ p.nreads + 0 + 1; omega⟩
    rw [probeLoop.eq_def]
    simp [portWrite, hs]
  | succ r' ih =>
    intro key sd p hs
    by_cases hr : r' = 0
    · refine ⟨{ p with nreads := p.nreads + 1, sent := p.sent ++ [applyKeyNotNone key sd] },
        ?_, fun i => hs i, by change p.nreads + 1 ≤ p.nreads + (r' + 1) + 1; omega⟩
      rw [probeLoop.eq_def]
      simp [portWrite, hs, hr]
    · obtain ⟨q, hq, hqresp, hqn⟩ := ih (some 0x55) (applyKeyNotNone key sd)
        { p with nreads := p.nreads + 1, sent := p.sent ++ [applyKeyNotNone key sd] }
        (fun i => hs i)
      refine ⟨q, ?_, hqresp, by simp at hqn; omega⟩
      rw [probeLoop.eq_def]
      simp only [portWrite, hs]
      simp [hr, hq, hs]

/-- Against the adversarial transport and retry budget `1`, `handshake`
exhausts any amount of fuel: the source recursion restarts with a fresh probe
counter on every empty key-negotiation read and never returns. -/
theorem handshakeFuel_adv (fuel : Nat) : ∀ (key : Option Nat) (p : PortState),
    (∀ i, p.responses i = advResp i) → p.nreads % 2 = 0 →
    hsIsOutOfFuel (handshakeFuel fuel 1 key p) = true := by
  induction fuel with
  | zero => intro key p _ _; rfl
  | succ fuel ih =>
    intro key p h heven
    have h7 : p.responses p.nreads = [0x07] := by
      rw [h]; simp [advResp, heven]
    have hb := probeLoop_break 1 key [0x00] p h7
    have hodd : (p.nreads + 1) % 2 = 1 := by omega
    have hneg : p.responses (p.nreads + 1) = [] := by
      rw [h]; simp [advResp, hodd]
    simp only [handshakeFuel, hb, portWrite]
    simp only [hneg, List.take_nil, List.length_nil, if_pos]
    have ihQ := ih (some 0x55)
      { responses := p.responses, nreads := p.nreads + 1 + 1,
        sent := p.sent ++ [applyKeyNotNone key [0x00]] ++
          [applyKeyTruthy key ([0x2f, 0x00] ++ [checksumOf [0x2f, 0x00]])],
        opened := p.opened }
      (fun i => h i) (by simp; omega)
    rcases hX : handshakeFuel fuel 1 (some 0x55)
      { responses := p.responses, nreads := p.nreads + 1 + 1,
        sent := p.sent ++ [applyKeyNotNone key [0x00]] ++
          [applyKeyTruthy key ([0x2f, 0x00] ++ [checksumOf [0x2f, 0x00]])],
        opened := p.opened } with _ | _ | _ <;> simp_all [hsIsOutOfFuel]

/-- Claim C1, counterexample: a transport returning zero bytes to a register
read makes `readaddress` return the non-error value `False` — it does not
fail with a length error, refuting the claim for the zero-byte case. -/
theorem C1_counterexample :
    rwVal (readaddress none 0x00fd (mkPort [])) = some (PyVal.pyBool false) ∧
    rwErr (readaddress none 0x00fd (mkPort [])) = none :=
  ⟨rfl, rfl⟩

/-- Claim C1, amended: a zero-byte response makes `readaddress` return the
Python value `False` without raising, while a 1- or 2-byte response raises
`MK312ReceivingLengthException`; in both cases exactly the keyed read frame
was sent. -/
theorem C1_amended_theorem (key : Option Nat) (a : Nat) (p : PortState) :
    (p.responses p.nreads = [] →
      readaddress key a p =
        RW.ok (PyVal.pyBool false)
          { p with nreads := p.nreads + 1,
                   sent := p.sent ++ [applyKeyTruthy key (readFrame a)] }) ∧
    (∀ r : List Nat, p.responses p.nreads = r → (r.length = 1 ∨ r.length = 2) →
      readaddress key a p =
        RW.exc (Exc.receivingLength r.length)
          { p with nreads := p.nreads + 1,
                   sent := p.sent ++ [applyKeyTruthy key (readFrame a)] }) := by
  constructor
  · intro h
    simp [readaddress, portWrite, h]
  · intro r hr hlen
    have htake : r.take 3 = r := List.take_of_length_le (by omega)
    simp only [readaddress, portWrite]
    simp only [hr]
    rw [htake]
    rw [if_neg (by omega), if_pos (by omega)]

/-- Claim C1, witness: a 2-byte response raises the length exception. -/
theorem C1_witness :
    readaddress none 0x00fd (mkPort [[0x01, 0x02]]) =
      RW.exc (Exc.receivingLength 2)
        { mkPort [[0x01, 0x02]] with
            nreads := (mkPort [[0x01, 0x02]]).nreads + 1,
            sent := (mkPort [[0x01, 0x02]]).sent ++
              [applyKeyTruthy none (readFrame 0x00fd)] } :=
  (C1_amended_theorem none 0x00fd (mkPort [[0x01, 0x02]])).2 [0x01, 0x02] rfl (by decide)

/-- Claim C2: on an empty (zero-byte) write acknowledgement, `writedata`
evaluates `read_data[0]` on an empty buffer and raises `IndexError` instead
of returning `False` as the claim and the method docstring describe. -/
theorem C2_theorem :
    rwErr (writedata none 0x4080 0x00 (mkPort [])) = some Exc.indexError ∧
    rwVal (writedata none 0x4080 0x00 (mkPort [])) = none :=
  ⟨rfl, rfl⟩

/-- Claim C3, counterexample: with retry budget `1`, against the adversarial
transport (probe answered `0x07`, negotiation read empty), the handshake is
still running after fuel for 4 complete restarts and has performed 8
transport reads — the total number of attempts is not bounded by the budget,
refuting the claim of no unbounded recursion. -/
theorem C3_counterexample :
    hsIsOutOfFuel (handshakeFuel 4 1 none advPort) = true ∧
    (hsPort (handshakeFuel 4 1 none advPort)).nreads = 8 :=
  ⟨rfl, rfl⟩

/-- Claim C3, amended: within a single `handshake` invocation the probe loop
is bounded — a fully silent transport makes it raise
`MK312HandshakeException` after at most `budget + 1` reads — but the
zero-byte key-negotiation path restarts the whole handshake recursively with
a fresh probe counter, so against the adversarial transport the recursion
exhausts any amount of fuel and the total number of attempts is unbounded. -/
theorem C3_amended_theorem :
    (∀ (fuel cfg : Nat) (p : PortState), (∀ i, p.responses i = []) →
      hsExcOf (handshakeFuel (fuel + 1) cfg none p) = some Exc.handshakeExc ∧
      (hsPort (handshakeFuel (fuel + 1) cfg none p)).nreads ≤ p.nreads + cfg + 1) ∧
    (∀ (fuel : Nat) (key : Option Nat) (p : PortState),
      (∀ i, p.responses i = advResp i) → p.nreads % 2 = 0 →
      hsIsOutOfFuel (handshakeFuel fuel 1 key p) = true) := by
  constructor
  · intro fuel cfg p hs
    obtain ⟨q, hq, _, hqn⟩ := probeLoop_silent cfg none [0x00] p hs
    refine ⟨?_, ?_⟩
    · simp [handshakeFuel, hq, hsExcOf]
    · simp only [handshakeFuel, hq, hsPort]
      omega
  · exact handshakeFuel_adv

/-- Claim C3, witness: a silent transport with budget 3 raises the handshake
exception within the read bound. -/
theorem C3_witness :
    hsExcOf (handshakeFuel 1 3 none silentPort) = some Exc.handshakeExc ∧
    (hsPort (handshakeFuel 1 3 none silentPort)).nreads ≤ silentPort.nreads + 3 + 1 :=
  C3_amended_theorem.1 0 3 silentPort (fun _ => rfl)

/-- Claim C4, counterexample: the command byte of the encoded write frame is
`((0x3 + 1) << 0x4) | 0xd = 0x4D`, not `0x3D` as claimed. -/
theorem C4_counterexample :
    writeFrame 0x4080 0x00 ≠ [0x3D, 0x40, 0x80, 0x00, 0xFD] ∧
    writeFrame 0x4080 0x00 = [0x4D, 0x40, 0x80, 0x00, 0x0D] := by
  decide

/-- Claim C4, amended: for `v` in `[0, 255]` the encoded write frame (before
XOR keying) is `[0x4D, hi(a), lo(a), v, c]` with
`c = (0x4D + hi(a) + lo(a) + v) mod 256`, and that frame (keyed) is exactly
what `writedata` sends; for `v = 256` or `v = -1` the write fails with
`MK312WriteDataValueException` before any transport activity. -/
theorem C4_amended_theorem (a : Nat) (v : Int) (ha : a ≤ 0xFFFF) (h0 : 0 ≤ v)
    (h1 : v ≤ 255) :
    writeFrame a v.toNat =
      [0x4D, a >>> 8, a &&& 0xff, v.toNat,
        (0x4D + (a >>> 8) + (a &&& 0xff) + v.toNat) % 256] ∧
    (∀ (key : Option Nat) (p : PortState),
      (rwPort (writedata key a v p)).sent =
        p.sent ++ [applyKeyTruthy key (writeFrame a v.toNat)]) ∧
    (∀ (key : Option Nat) (p : PortState),
      writedata key a 256 p = RW.exc Exc.writeDataValue p) ∧
    (∀ (key : Option Nat) (p : PortState),
      writedata key a (-1) p = RW.exc Exc.writeDataValue p) := by
  have hcmd : (((0x3 + 1) <<< 0x4) ||| 0xd : Nat) = 0x4D := by decide
  refine ⟨?_, ?_, ?_, ?_⟩
  · simp only [writeFrame, checksumOf, hcmd, List.sum_cons, List.sum_nil, List.cons_append,
      List.nil_append, List.cons.injEq, and_true, true_and]
    omega
  · intro key p
    simp only [writedata, portWrite]
    rw [if_neg (by omega)]
    cases hrd : (List.take 1 (p.responses p.nreads)).head?
    · simp [hrd, rwPort]
    · simp only [hrd]
      split <;> simp [rwPort]
  · intro key p
    simp only [writedata]
    rw [if_pos (by omega)]
  · intro key p
    simp only [writedata]
    rw [if_pos (by omega)]

/-- Claim C4, witness: the frame for address `0x4080`, value `5`, and the
`InvalidValue` rejection of `256`. -/
theorem C4_witness :
    writeFrame 0x4080 ((5 : Int).toNat) =
      [0x4D, 0x4080 >>> 8, 0x4080 &&& 0xff, (5 : Int).toNat,
        (0x4D + (0x4080 >>> 8) + (0x4080 &&& 0xff) + (5 : Int).toNat) % 256] ∧
    writedata none 0x4080 256 (mkPort []) = RW.exc Exc.writeDataValue (mkPort []) :=
  ⟨(C4_amended_theorem 0x4080 5 (by decide) (by decide) (by decide)).1,
   (C4_amended_theorem 0x4080 5 (by decide) (by decide) (by decide)).2.2.1 none (mkPort [])⟩

/-- Claim C5, counterexample: `adcDisable` with key unset performs a register
read and a register write (only the two register frames appear in the sent
log, no handshake probe) and leaves the key `None` — it never triggers the
handshake, refuting the claim for the ADC entry points. -/
theorem C5_counterexample :
    opVal (adcDisable none cexPortAdc) = some true ∧
    opKey (adcDisable none cexPortAdc) = none ∧
    (opPort (adcDisable none cexPortAdc)).sent =
      [readFrame ADDRESS_R15, writeFrame ADDRESS_R15 5] :=
  ⟨rfl, rfl, rfl⟩

/-- Claim C5, amended: every Operation Layer entry point except `adcEnable`
and `adcDisable` triggers the handshake when it observes the key unset,
before any transport activity (with zero handshake fuel each such call gets
stuck in the handshake with the port untouched), while `adcEnable` and
`adcDisable` never enter the handshake at all. -/
theorem C5_amended_theorem (cfg : Nat) (mode level : Int) (p : PortState)
    (h0 : 0 ≤ level) (h1 : level ≤ 255) :
    modeSwitch 0 cfg none mode p = OpRes.outOfFuel none p ∧
    powerLevelSet 0 cfg none level p = OpRes.outOfFuel none p ∧
    powerLevelRead 0 cfg none p = OpRes.outOfFuel none p ∧
    powerLevelWrite 0 cfg none level p = OpRes.outOfFuel none p ∧
    favoriteModeLoad 0 cfg none p = OpRes.outOfFuel none p ∧
    favoriteModeRead 0 cfg none p = OpRes.outOfFuel none p ∧
    favoriteModeWrite 0 cfg none mode p = OpRes.outOfFuel none p ∧
    levelASet 0 cfg none level p = OpRes.outOfFuel none p ∧
    levelAGet 0 cfg none p = OpRes.outOfFuel none p ∧
    levelBSet 0 cfg none level p = OpRes.outOfFuel none p ∧
    levelBGet 0 cfg none p = OpRes.outOfFuel none p ∧
    levelMASet 0 cfg none level p = OpRes.outOfFuel none p ∧
    levelMAGetMinMaxValue 0 cfg none p = OpRes.outOfFuel none p ∧
    levelMAGet 0 cfg none p = OpRes.outOfFuel none p ∧
    (∀ (k : Option Nat) (q : PortState), opIsOutOfFuel (adcDisable k q) = false) ∧
    (∀ (k : Option Nat) (q : PortState), opIsOutOfFuel (adcEnable k q) = false) := by
  refine ⟨rfl, rfl, rfl, rfl, rfl, rfl, rfl, ?_, rfl, ?_, rfl, rfl, rfl, rfl, ?_, ?_⟩
  · simp only [levelASet]
    rw [if_neg (by omega)]
    rfl
  · simp only [levelBSet]
    rw [if_neg (by omega)]
    rfl
  · intro k q
    simp only [adcDisable]
    split <;> (try split) <;> simp [opIsOutOfFuel]
  · intro k q
    simp only [adcEnable]
    split <;> (try split) <;> simp [opIsOutOfFuel]

/-- Claim C5, witness: two representative guarded entry points at zero fuel. -/
theorem C5_witness :
    modeSwitch 0 10 none 0 silentPort = OpRes.outOfFuel none silentPort ∧
    levelASet 0 10 none 0 silentPort = OpRes.outOfFuel none silentPort :=
  ⟨(C5_amended_theorem 10 0 0 silentPort (by decide) (by decide)).1,
   (C5_amended_theorem 10 0 0 silentPort (by decide) (by decide)).2.2.2.2.2.2.2.1⟩

/-- Claim C6, counterexample: when the key-reset read gets a 2-byte response,
`close` propagates `MK312ReceivingLengthException` and the port is left open
— the key-reset failure does prevent transport closure. -/
theorem C6_counterexample :
    opExcOf (close none (mkPort [[0x01, 0x02]])) = some (Exc.receivingLength 2) ∧
    (opPort (close none (mkPort [[0x01, 0x02]]))).opened = true :=
  ⟨rfl, rfl⟩

/-- Claim C6, amended: when the key-reset register accesses do not raise (a
well-formed 3-byte read response and a nonempty write acknowledgement, acked
or not), `close` clears the key and closes the transport, and an
unestablished session (key `None`) sends the reset frames unkeyed; but a
raising reset access propagates before the port is closed (see the
counterexample). -/
theorem C6_amended_theorem (key : Option Nat) (p : PortState) (b0 b1 ack : Nat)
    (rest : List Nat) (hopen : p.opened = true)
    (h1 : p.responses p.nreads = [b0, b1, (b0 + b1) % 256])
    (h2 : p.responses (p.nreads + 1) = ack :: rest) :
    opVal (close key p) = some (some true) ∧
    opKey (close key p) = none ∧
    (opPort (close key p)).opened = false ∧
    (key = none →
      (opPort (close none p)).sent =
        p.sent ++ [readFrame ADDRESS_KEY, writeFrame ADDRESS_KEY 0]) := by
  by_cases hack : ack = 6 <;>
    refine ⟨?_, ?_, ?_, fun hk => ?_⟩ <;>
    simp [close, resetkey, readaddress, writedata, portWrite, portClose, h1, h2,
      checksumOf, hopen, hack, applyKeyTruthy, opVal, opKey, opPort]

/-- Claim C6, witness: a clean close on a healthy transport. -/
theorem C6_witness :
    opVal (close none (mkPort [[0x10, 0x20, 0x30], [0x06]])) = some (some true) ∧
    (opPort (close none (mkPort [[0x10, 0x20, 0x30], [0x06]]))).opened = false :=
  ⟨(C6_amended_theorem none (mkPort [[0x10, 0x20, 0x30], [0x06]]) 0x10 0x20 6 []
      rfl (by decide) rfl).1,
   (C6_amended_theorem none (mkPort [[0x10, 0x20, 0x30], [0x06]]) 0x10 0x20 6 []
      rfl (by decide) rfl).2.2.1⟩

/-- Claim C7: on an established session whose device stays silent on reads,
`readaddress` returns `False`, which Python-compares equal to `0`, so
`modeSwitch 0`, `favoriteModeWrite 0` and `powerLevelWrite 0` all
short-circuit to `True` having sent exactly one read frame and no write. -/
theorem C7_theorem (fuel cfg k : Nat) (p : PortState) (hs : ∀ i, p.responses i = []) :
    (opVal (modeSwitch fuel cfg (some k) 0 p) = some true ∧
     (opPort (modeSwitch fuel cfg (some k) 0 p)).sent =
       p.sent ++ [applyKeyTruthy (some k) (readFrame ADDRESS_CURRENT_MODE)]) ∧
    (opVal (favoriteModeWrite fuel cfg (some k) 0 p) = some true ∧
     (opPort (favoriteModeWrite fuel cfg (some k) 0 p)).sent =
       p.sent ++ [applyKeyTruthy (some k) (readFrame EEPROM_ADDRESS_FAVORITE_MODE)]) ∧
    (opVal (powerLevelWrite fuel cfg (some k) 0 p) = some true ∧
     (opPort (powerLevelWrite fuel cfg (some k) 0 p)).sent =
       p.sent ++ [applyKeyTruthy (some k) (readFrame EEPROM_ADDRESS_POWER_LEVEL)]) := by
  refine ⟨⟨?_, ?_⟩, ⟨?_, ?_⟩, ⟨?_, ?_⟩⟩ <;>
    simp [modeSwitch, favoriteModeWrite, powerLevelWrite, ensureKey, readaddress, portWrite,
      hs, pyEq, PyVal.toInt, opVal, opPort]

/-- Claim C7, witness: the three operations against a concrete silent port. -/
theorem C7_witness :
    opVal (modeSwitch 3 10 (some 0x55) 0 silentPort) = some true ∧
    opVal (favoriteModeWrite 3 10 (some 0x55) 0 silentPort) = some true ∧
    opVal (powerLevelWrite 3 10 (some 0x55) 0 silentPort) = some true :=
  ⟨(C7_theorem 3 10 0x55 silentPort (fun _ => rfl)).1.1,
   (C7_theorem 3 10 0x55 silentPort (fun _ => rfl)).2.1.1,
   (C7_theorem 3 10 0x55 silentPort (fun _ => rfl)).2.2.1⟩

/-- Claim C8: whenever the probe is answered `0x07` and the key-negotiation
read returns exactly 3 bytes whose last byte is the mod-256 sum of the first
two, the handshake returns `True` with the session key `0x55 XOR byte1`. -/
theorem C8_theorem (fuel cfg : Nat) (key : Option Nat) (p : PortState) (b0 b1 : Nat)
    (h7 : p.responses p.nreads = [0x07])
    (hneg : p.responses (p.nreads + 1) = [b0, b1, (b0 + b1) % 256]) :
    hsRet (handshakeFuel (fuel + 1) cfg key p) = some (some true) ∧
    hsKey (handshakeFuel (fuel + 1) cfg key p) = some (0x55 ^^^ b1) := by
  have hb := probeLoop_break cfg key [0x00] p h7
  constructor <;>
    simp [handshakeFuel, hb, portWrite, hneg, checksumOf, hsRet, hsKey]

/-- Claim C8, witness: probe `0x07` then `[0x21, 0x2A, 0x4B]` yields the
derived key `0x55 ^ 0x2A = 0x7F`. -/
theorem C8_witness :
    hsRet (handshakeFuel 1 10 none (mkPort [[0x07], [0x21, 0x2A, 0x4B]])) =
      some (some true) ∧
    hsKey (handshakeFuel 1 10 none (mkPort [[0x07], [0x21, 0x2A, 0x4B]])) = some 0x7F :=
  C8_theorem 0 10 none (mkPort [[0x07], [0x21, 0x2A, 0x4B]]) 0x21 0x2A rfl (by decide)

/-- Claim C9: on an established session, if the current-mode register reads
back as the requested mode, `modeSwitch` returns `True` immediately — exactly
one read frame is sent and no register write happens. -/
theorem C9_theorem (fuel cfg k : Nat) (mode : Int) (p : PortState) (b0 m : Nat)
    (hresp : p.responses p.nreads = [b0, m, (b0 + m) % 256])
    (hmode : mode = (m : Int)) :
    opVal (modeSwitch fuel cfg (some k) mode p) = some true ∧
    (opPort (modeSwitch fuel cfg (some k) mode p)).sent =
      p.sent ++ [applyKeyTruthy (some k) (readFrame ADDRESS_CURRENT_MODE)] ∧
    (opPort (modeSwitch fuel cfg (some k) mode p)).nreads = p.nreads + 1 := by
  subst hmode
  refine ⟨?_, ?_, ?_⟩ <;>
    simp [modeSwitch, ensureKey, readaddress, portWrite, hresp, pyEq, PyVal.toInt,
      checksumOf, opVal, opPort]

/-- Claim C9, witness: requesting mode `0x76` when the register already holds
`0x76` is a no-op returning `True` after a single read. -/
theorem C9_witness :
    opVal (modeSwitch 2 10 (some 0x12) 0x76 (mkPort [[0x00, 0x76, 0x76]])) = some true ∧
    (opPort (modeSwitch 2 10 (some 0x12) 0x76 (mkPort [[0x00, 0x76, 0x76]]))).nreads =
      (mkPort [[0x00, 0x76, 0x76]]).nreads + 1 :=
  ⟨(C9_theorem 2 10 0x12 0x76 (mkPort [[0x00, 0x76, 0x76]]) 0 0x76 (by decide) rfl).1,
   (C9_theorem 2 10 0x12 0x76 (mkPort [[0x00, 0x76, 0x76]]) 0 0x76 (by decide) rfl).2.2⟩

/-- Claim C10: when every probe read returns zero bytes, the handshake sets
the key to the default `0x55` before failing, and this assignment survives
the raised `MK312HandshakeException`; afterwards the `key is None` guards of
the operations skip the implicit handshake (with an established key they
consume no handshake fuel at all). -/
theorem C10_theorem (fuel cfg : Nat) (p : PortState) (hs : ∀ i, p.responses i = []) :
    hsExcOf (handshakeFuel (fuel + 1) cfg none p) = some Exc.handshakeExc ∧
    hsKey (handshakeFuel (fuel + 1) cfg none p) = some 0x55 ∧
    (∀ (cfg2 k2 : Nat) (q : PortState),
      ensureKey 0 cfg2 (some k2) q = HS.ok none (some k2) q) := by
  obtain ⟨q, hq, _, _⟩ := probeLoop_silent cfg none [0x00] p hs
  refine ⟨?_, ?_, fun cfg2 k2 q => rfl⟩ <;>
    simp [handshakeFuel, hq, hsExcOf, hsKey]

/-- Claim C10, witness: the silent port leaves the key at `0x55` after the
handshake exception. -/
theorem C10_witness :
    hsExcOf (handshakeFuel 1 2 none silentPort) = some Exc.handshakeExc ∧
    hsKey (handshakeFuel 1 2 none silentPort) = some 0x55 :=
  ⟨(C10_theorem 0 2 silentPort (fun _ => rfl)).1,
   (C10_theorem 0 2 silentPort (fun _ => rfl)).2.1⟩

end MK312
